import Mathlib

/-!
# Natron `Engine/ViewerInstance.h`

A shallow embedding of the viewer process node declared in
`Engine/ViewerInstance.h`.

The header carries two function bodies, `ViewerInstance::getMakeSettingsPanel`
and the free function `toViewerInstance`; both are translated from the source,
as are the parameter names. The input-indexed queries and `getChannelOptions`
are only declared there (their bodies live in `ViewerInstance.cpp`) and are
modelled from the design document; each such definition says so in its doc
comment.
-/

namespace Natron

/-! ## Parameter names (lines 43-71 of the header) -/

def kViewerInstanceParamEnableAutoContrast : String := "autoContrast"

def kViewerInstanceParamGamma : String := "gamma"

/-- A frame time. The header takes `TimeValue` from `Engine/EngineFwd.h`; frames
are counted with integers here. -/
abbrev TimeValue := Int

/-- Index of a view (`Engine/ViewIdx.h`). -/
abbrev ViewIdx := Nat

/-- A `NodePtr`: null, or the identity of a node of the graph. -/
abbrev NodePtr := Option Nat

/-- Value of a knob at one time: a number, the identifier of a choice entry, or
a channel of a layer (the entries of the alpha-channel choice). -/
inductive KnobValue where
  | num (v : Int)
  | str (s : String)
  | channel (layer : String) (component : String)
deriving DecidableEq, Repr

/-- A knob of the parameter-holding layer: a named, time-sampled value. The
flag tells whether the value influences the pixels the node outputs. -/
structure Knob where
  name : String
  affectsOutput : Bool
  valueAt : TimeValue → KnobValue

/-- Modelled from the spec: the private block `ViewerInstancePrivate`, which the
header only forward-declares (line 75). It holds what the design document lets a
node declare: a maximum input count with per-input label and optionality
(section 3, "Node"), the knobs of the node, and the enable flag of
`setRefreshLayerAndAlphaChoiceEnabled` (section 4.6). -/
structure ViewerInstancePrivate where
  maxInputCount : Nat
  inputLabels : Nat → String
  inputOptional : Nat → Bool
  knobs : List Knob
  refreshLayerAndAlphaChoiceEnabled : Bool

/-- A `ViewerInstance` object: the node it was created for (constructor argument,
line 84) and the private block `_imp` (line 164). -/
structure ViewerInstance where
  node : NodePtr
  _imp : ViewerInstancePrivate

/-! ## Functions whose body is in the header -/

/-- `ViewerInstance::getMakeSettingsPanel` (line 102): `{ return false; }`. -/
def getMakeSettingsPanel (_self : ViewerInstance) : Bool := false

/-- Dynamic class of an effect object. The constructor of `ViewerInstance` is
private and the class names no friend (lines 80-84), so no class derived from it
can be instantiated: an object that is a `ViewerInstance` has exactly that
dynamic class. Every other effect class is an `other` tag. -/
inductive EffectClass where
  | viewerInstance
  | other (id : Nat)
deriving DecidableEq, Repr

/-- The pointee of a non-null effect pointer: the address of the object and its
dynamic class. -/
structure EffectObject where
  addr : Nat
  dynClass : EffectClass
deriving DecidableEq, Repr

/-- An `EffectInstancePtr` (`boost::shared_ptr<EffectInstance>`): `none` is the
null pointer. -/
abbrev EffectInstancePtr := Option EffectObject

/-- A `ViewerInstancePtr`: `none` is the null pointer. -/
abbrev ViewerInstancePtr := Option EffectObject

/-- The cast `boost::dynamic_pointer_cast<ViewerInstance>`: the same pointer when
the pointee is a `ViewerInstance`, the null pointer otherwise. -/
def dynamic_pointer_cast_ViewerInstance (p : EffectInstancePtr) : ViewerInstancePtr :=
  match p with
  | none => none
  | some o => if o.dynClass = EffectClass.viewerInstance then some o else none

/-- The free function `toViewerInstance` (lines 167-171). -/
def toViewerInstance (effect : EffectInstancePtr) : ViewerInstancePtr :=
  dynamic_pointer_cast_ViewerInstance effect

/-! ## Input-indexed queries -/

/-- The failure of an input-indexed query. -/
inductive QueryError where
  | outOfRange
deriving DecidableEq, Repr

/-- Modelled from the spec: the body of `ViewerInstance::getMaxInputCount` (declared
line 112, defined in `ViewerInstance.cpp`): the node's declared maximum input
count (section 3, "Node"). -/
def getMaxInputCount (self : ViewerInstance) : Int :=
  (self._imp.maxInputCount : Int)

/-- Whether `n` is a valid input index (invariant I1). -/
def validInputIndex (self : ViewerInstance) (n : Int) : Bool :=
  decide (0 ≤ n) && decide (n < getMaxInputCount self)

/-- Modelled from the spec: the body of `ViewerInstance::isInputOptional` (declared
line 114, defined in `ViewerInstance.cpp`). Invariant I1 bounds the index by the
maximum input count and Scenario C makes an index outside it fail with an
out-of-range condition. -/
def isInputOptional (self : ViewerInstance) (n : Int) : Except QueryError Bool :=
  if validInputIndex self n then .ok (self._imp.inputOptional n.toNat)
  else .error QueryError.outOfRange

/-- Modelled from the spec: the body of `ViewerInstance::getInputLabel` (declared
line 116, defined in `ViewerInstance.cpp`), with the same range rule as
`isInputOptional`. -/
def getInputLabel (self : ViewerInstance) (inputNb : Int) : Except QueryError String :=
  if validInputIndex self inputNb then .ok (self._imp.inputLabels inputNb.toNat)
  else .error QueryError.outOfRange

/-! ## Channel/Layer Selector (section 4.6) -/

/-- Scenario C: a viewer with a maximum input count of 2. -/
def scenarioC : ViewerInstance :=
  { node := some 0,
    _imp := { maxInputCount := 2,
              inputLabels := fun n => if n = 0 then "A" else "B",
              inputOptional := fun n => decide (n = 1),
              knobs := [],
              refreshLayerAndAlphaChoiceEnabled := true } }

/-- C9. For every `ViewerInstance`, in every state, `getMakeSettingsPanel`
returns `false`. -/
theorem getMakeSettingsPanel_false (self : ViewerInstance) :
    getMakeSettingsPanel self = false := rfl

/-- C10. `toViewerInstance e` is `e` itself when `e` points at an object whose
dynamic class is `ViewerInstance`; it is the null pointer when `e` is null or
points at an object of another class; and whenever it is not null it points at
the object `e` points at. -/
theorem toViewerInstance_spec (effect : EffectInstancePtr) :
    (∀ o, effect = some o → o.dynClass = EffectClass.viewerInstance →
        toViewerInstance effect = effect) ∧
    ((effect = none ∨ ∃ o, effect = some o ∧ o.dynClass ≠ EffectClass.viewerInstance) →
        toViewerInstance effect = none) ∧
    (∀ o, toViewerInstance effect = some o → effect = some o) := by
  unfold toViewerInstance dynamic_pointer_cast_ViewerInstance
  refine ⟨?_, ?_, ?_⟩
  · intro o ho hc
    subst ho
    simp [hc]
  · rintro (h | ⟨o, ho, hc⟩)
    · subst h; rfl
    · subst ho; simp [hc]
  · intro o ho
    cases effect with
    | none => simp at ho
    | some p =>
      by_cases hc : p.dynClass = EffectClass.viewerInstance
      · simpa [hc] using ho
      · simp [hc] at ho

/-- C10 at three pointers: a viewer is returned unchanged, another effect and the
null pointer give the null pointer. -/
theorem toViewerInstance_spec_witness :
    toViewerInstance (some { addr := 7, dynClass := EffectClass.viewerInstance })
      = some { addr := 7, dynClass := EffectClass.viewerInstance } ∧
    toViewerInstance (some { addr := 8, dynClass := EffectClass.other 3 }) = none ∧
    toViewerInstance none = none :=
  ⟨(toViewerInstance_spec _).1 _ rfl rfl,
   (toViewerInstance_spec _).2.1 (Or.inr ⟨_, rfl, by decide⟩),
   (toViewerInstance_spec none).2.1 (Or.inl rfl)⟩

/-- C1. For every viewer and every input index `n` outside
`0 <= n < getMaxInputCount()`, `getInputLabel n` and `isInputOptional n` fail
with the out-of-range condition. -/
theorem input_query_out_of_range (self : ViewerInstance) (n : Int)
    (h : ¬ (0 ≤ n ∧ n < getMaxInputCount self)) :
    getInputLabel self n = .error QueryError.outOfRange ∧
    isInputOptional self n = .error QueryError.outOfRange := by
  have hv : validInputIndex self n = false := by
    unfold validInputIndex
    by_cases h0 : 0 ≤ n
    · have h1 : ¬ n < getMaxInputCount self := fun h1 => h ⟨h0, h1⟩
      simp [h0, h1]
    · simp [h0]
  simp [getInputLabel, isInputOptional, hv]

/-- C1 at Scenario C: with a maximum input count of 2, input index 2 fails with
the out-of-range condition for the label and for the optionality, while input
index 1 has a label and an optionality. -/
theorem input_query_out_of_range_scenarioC :
    (getMaxInputCount scenarioC = 2 ∧
      getInputLabel scenarioC 1 = .ok "B" ∧ isInputOptional scenarioC 1 = .ok true) ∧
    getInputLabel scenarioC 2 = .error QueryError.outOfRange ∧
    isInputOptional scenarioC 2 = .error QueryError.outOfRange :=
  ⟨⟨rfl, rfl, rfl⟩, input_query_out_of_range scenarioC 2 (by decide)⟩

end Natron
